import Mathlib

/-!
Shallow embedding of the order-ID allocator and order status workflow of the
Financial Transfer Management System (`src/lib/db/orders.ts` — `generateOrderId`,
`createOrder`, `updateOrder`, `updateOrderStatus` — together with the timezone
helper `getJordanTime` from `src/lib/utils.ts` and the data model from
`src/types/index.ts`).

Machine integers of the source (JS numbers used as counters and epoch seconds)
are modelled as `Nat`; fallible operations return explicit results; the
Firestore document store is modelled as explicit state passed through each
operation.
-/

/-- Embeds JS `String.fromCharCode(48 + d)`: the decimal digit character for `d < 10`. -/
def digitChar (d : Nat) : Char := Char.ofNat (48 + d)

/-- Fuelled core of decimal conversion: emits the decimal digits of `n`,
most significant first.  `fuel ≥ n` suffices because the recursion divides by 10. -/
def toDecimalChars (fuel n : Nat) : List Char :=
  match fuel with
  | 0 => []
  | fuel + 1 =>
    if n < 10 then [digitChar n]
    else toDecimalChars fuel (n / 10) ++ [digitChar (n % 10)]

/-- Embeds JS `Number.prototype.toString()` (radix 10) on a non-negative integer. -/
def jsToString (n : Nat) : String := String.mk (toDecimalChars n n)

/-- Embeds JS `String.prototype.padStart(n, c)`: left-pads `s` with `c` up to
length `n`; a string already of length `≥ n` is returned unchanged
(`n - s.length` truncates at zero). -/
def jsPadStart (s : String) (n : Nat) (c : Char) : String :=
  String.mk (List.replicate (n - s.length) c) ++ s

/-- Embeds JS `String.prototype.slice(-2)`: the last two characters of `s`
(all of `s` when it is shorter). -/
def sliceNegTwo (s : String) : String := s.drop (s.length - 2)

/-! ## Calendar (embedding of JS `Date` getters and `utcToZonedTime`)

Time instants are modelled as seconds since the Unix epoch (`Nat`).
`civilFromDays` is the standard proleptic-Gregorian conversion from a day
number since 1970-01-01 to `(year, month, day)` with `month ∈ 1..12`; it
embeds the JS `Date` getters `getFullYear()` / `getMonth() + 1` evaluated on
an epoch instant. -/

/-- Proleptic Gregorian civil date `(year, month, day)` of day number `z`
(days since 1970-01-01), `month ∈ 1..12`. -/
def civilFromDays (z : Nat) : Nat × Nat × Nat :=
  let z' := z + 719468
  let era := z' / 146097
  let doe := z' % 146097
  let yoe := (doe - doe / 1460 + doe / 36524 - doe / 146096) / 365
  let doy := doe - (365 * yoe + yoe / 4 - yoe / 100)
  let mp := (5 * doy + 2) / 153
  let d := doy - (153 * mp + 2) / 5 + 1
  let m := if mp < 10 then mp + 3 else mp - 9
  (yoe + era * 400 + (if m ≤ 2 then 1 else 0), m, d)

def secondsPerDay : Nat := 86400

/-- Fixed offset of Asia/Amman: UTC+3 (Jordan abolished DST at the end of 2022;
the zone is a constant +03:00 for every instant relevant here).  Embeds the zone
lookup performed by `utcToZonedTime(date, 'Asia/Amman')` in `getJordanTime`. -/
def jordanOffsetSeconds : Nat := 3 * 3600

/-- Civil date of the UTC wall clock at epoch instant `t`. -/
def utcCivil (t : Nat) : Nat × Nat × Nat := civilFromDays (t / secondsPerDay)

/-- Embeds `getJordanTime` (src/lib/utils.ts line 72) followed by the
`getFullYear` / `getMonth` reads: the civil date of the Asia/Amman wall clock
at epoch instant `t`. -/
def jordanCivil (t : Nat) : Nat × Nat × Nat :=
  civilFromDays ((t + jordanOffsetSeconds) / secondsPerDay)

/-- Year and month (1..12) of the UTC wall clock at `t`. -/
def utcYearMonth (t : Nat) : Nat × Nat := ((utcCivil t).1, (utcCivil t).2.1)

/-- Year and month (1..12) of the Asia/Amman wall clock at `t`. -/
def jordanYearMonth (t : Nat) : Nat × Nat := ((jordanCivil t).1, (jordanCivil t).2.1)

/-- Embeds `now.getFullYear().toString().slice(-2)` (orders.ts line 29),
with `now = getJordanTime()`. -/
def yearDigits (t : Nat) : String := sliceNegTwo (jsToString (jordanYearMonth t).1)

/-- Embeds `(now.getMonth() + 1).toString().padStart(2, '0')` (orders.ts line 30). -/
def monthDigits (t : Nat) : String := jsPadStart (jsToString (jordanYearMonth t).2) 2 '0'

/-- Embeds `` `${year}${month}` `` (orders.ts line 31). -/
def monthKeyStr (t : Nat) : String := yearDigits t ++ monthDigits t

/-- Embeds the counter document path `` `orders_${monthKey}` `` (orders.ts line 34). -/
def counterKey (t : Nat) : String := "orders_" ++ monthKeyStr t

/-! ## Order ID allocator (embedding of `generateOrderId`, orders.ts lines 27-48)

The counters collection is modelled as a map from document path to an optional
counter document.  The Firestore transaction is modelled in its committed,
serialized form: one allocation is one atomic read-modify-write of the counter
document for the month key (the transaction primitive itself is an external
collaborator; concurrency is delegated to it, so sequential composition of
committed transactions is the faithful shallow embedding). -/

/-- A document of the `counters` collection: `{ count, month }` (orders.ts line 42). -/
structure CounterDoc where
  count : Nat
  month : String
deriving DecidableEq, Repr

/-- The `counters` collection: document path to optional document. -/
def CounterStore := String → Option CounterDoc

/-- The counters collection with no documents. -/
def emptyCounterStore : CounterStore := fun _ => none

/-- The `currentCount` computed by `generateOrderId` from the state it read
(orders.ts lines 37-43): one more than the stored count, or 1 when the counter
document for the month of `t` is absent.  This is the post-increment value used
for the returned ID. -/
def nextSeq (s : CounterStore) (t : Nat) : Nat :=
  match s (counterKey t) with
  | some c => c.count + 1
  | none => 1

/-- The order ID string `` `T${year}${month}${sequence}` `` for sequence
number `i` at the Jordan-zoned month of instant `t` (orders.ts lines 45-46). -/
def orderIdAt (t i : Nat) : String :=
  "T" ++ yearDigits t ++ monthDigits t ++ jsPadStart (jsToString i) 4 '0'

/-- Embeds `generateOrderId` (orders.ts lines 27-48) at epoch instant `t`, for
a committed transaction: reads the counter document for the Jordan month key of
`t`; if present, uses `count + 1` and updates the document with
`count: increment(1)`; if absent, uses 1 and creates the document
`{ count: 1, month: monthKey }`.  Returns the formatted ID and the updated
counters collection. -/
def generateOrderId (s : CounterStore) (t : Nat) : String × CounterStore :=
  match s (counterKey t) with
  | some cdoc =>
    ("T" ++ yearDigits t ++ monthDigits t ++ jsPadStart (jsToString (cdoc.count + 1)) 4 '0',
     fun k => if k = counterKey t then some ⟨cdoc.count + 1, cdoc.month⟩ else s k)
  | none =>
    ("T" ++ yearDigits t ++ monthDigits t ++ jsPadStart (jsToString 1) 4 '0',
     fun k => if k = counterKey t then some ⟨1, monthKeyStr t⟩ else s k)

/-- `n` successive committed allocations at instants within the month of `t`
(each call evaluates `getJordanTime()` to the same month): the list of IDs
returned, in order, and the final counters collection. -/
def allocateMany (t : Nat) : Nat → CounterStore → List String × CounterStore
  | 0, s => ([], s)
  | n + 1, s =>
    ((generateOrderId s t).1 :: (allocateMany t n (generateOrderId s t).2).1,
     (allocateMany t n (generateOrderId s t).2).2)

/-! ## Data model (embedding of `src/types/index.ts`) -/

/-- `OrderStatus` (types/index.ts lines 54-61). -/
inductive OrderStatus where
  | submitted
  | pending_review
  | approved
  | rejected
  | processing
  | completed
  | cancelled
deriving DecidableEq, Repr

/-- `Order.type` (types/index.ts line 38). -/
inductive OrderType where
  | incoming
  | outgoing
deriving DecidableEq, Repr

/-- `CliqDetails` (types/index.ts lines 63-66). -/
structure CliqDetails where
  aliasName : Option String := none
  mobileNumber : Option String := none
deriving DecidableEq, Repr

/-- `RecipientDetails` (types/index.ts lines 68-73). -/
structure RecipientDetails where
  name : Option String := none
  bank : Option String := none
  accountNumber : Option String := none
  notes : Option String := none
deriving DecidableEq, Repr

/-- `OrderTimestamps` (types/index.ts lines 75-81); instants as epoch seconds. -/
structure OrderTimestamps where
  created : Nat
  updated : Nat
  completed : Option Nat := none
  approved : Option Nat := none
  rejected : Option Nat := none
deriving DecidableEq, Repr

/-- `Order` (types/index.ts lines 34-52).  Monetary figures are inert here and
modelled as `Int`. -/
structure Order where
  id : String
  orderId : String
  exchangeId : String
  type : OrderType
  status : OrderStatus
  submittedAmount : Int
  finalAmount : Option Int := none
  commission : Int
  cliqDetails : Option CliqDetails := none
  recipientDetails : Option RecipientDetails := none
  bankUsed : Option String := none
  platformBankUsed : Option String := none
  screenshots : List String := []
  adminNotes : Option String := none
  rejectionReason : Option String := none
  senderName : Option String := none
  timestamps : OrderTimestamps
deriving DecidableEq, Repr

/-- The `orderData` argument of `createOrder`:
`Omit<Order, 'id' | 'orderId' | 'timestamps'>` (orders.ts line 51) — every
`Order` field except the storage id, the allocated orderId and the timestamps;
in particular it still carries `status`. -/
structure OrderData where
  exchangeId : String
  type : OrderType
  status : OrderStatus
  submittedAmount : Int
  finalAmount : Option Int := none
  commission : Int
  cliqDetails : Option CliqDetails := none
  recipientDetails : Option RecipientDetails := none
  bankUsed : Option String := none
  platformBankUsed : Option String := none
  screenshots : List String := []
  adminNotes : Option String := none
  rejectionReason : Option String := none
  senderName : Option String := none
deriving DecidableEq, Repr

/-- The `updates` argument of `updateOrder`:
`Partial<Omit<Order, 'id' | 'orderId' | 'timestamps'>>` (orders.ts line 177).
`some v` models the key being present in the partial object with value `v`
(for the optional `Order` fields, presence with that value); `none` models the
key being absent, so the stored field is untouched by the merge. -/
structure OrderUpdates where
  exchangeId : Option String := none
  type : Option OrderType := none
  status : Option OrderStatus := none
  submittedAmount : Option Int := none
  finalAmount : Option Int := none
  commission : Option Int := none
  cliqDetails : Option CliqDetails := none
  recipientDetails : Option RecipientDetails := none
  bankUsed : Option String := none
  platformBankUsed : Option String := none
  screenshots : Option (List String) := none
  adminNotes : Option String := none
  rejectionReason : Option String := none
  senderName : Option String := none
deriving DecidableEq, Repr

/-- `ApiResponse<T>` (types/index.ts lines 146-151). -/
structure ApiResponse (α : Type) where
  success : Bool
  data : Option α := none
  error : Option String := none
  message : Option String := none

/-- The persisted state touched by the order operations: the `counters`
collection and the `orders` collection (document id paired with its record). -/
structure DbState where
  counters : CounterStore
  orders : List (String × Order)


/-! ## CRUD operations (embedding of orders.ts lines 51-234) -/

/-- The record persisted by `createOrder` (orders.ts lines 56-75): the caller's
`orderData` spread unchanged, the allocated `orderId`, the storage-assigned
document id, and fresh `timestamps` with `created = updated = now`. -/
def orderFromData (od : OrderData) (docId orderId : String) (now : Nat) : Order :=
  { id := docId
    orderId := orderId
    exchangeId := od.exchangeId
    type := od.type
    status := od.status
    submittedAmount := od.submittedAmount
    finalAmount := od.finalAmount
    commission := od.commission
    cliqDetails := od.cliqDetails
    recipientDetails := od.recipientDetails
    bankUsed := od.bankUsed
    platformBankUsed := od.platformBankUsed
    screenshots := od.screenshots
    adminNotes := od.adminNotes
    rejectionReason := od.rejectionReason
    senderName := od.senderName
    timestamps := { created := now, updated := now } }

/-- Embeds `createOrder` (orders.ts lines 51-89).  `commit` models whether the
counter transaction inside `generateOrderId` commits: when it does not, the
`await generateOrderId()` on line 53 throws before `addDoc` runs, the `catch`
returns a failure response and no state is written; when it commits, the order
record is appended under the fresh document id `docId` returned by `addDoc`,
and the success response carries the new order. -/
def createOrder (db : DbState) (commit : Bool) (t now : Nat) (od : OrderData)
    (docId : String) : ApiResponse Order × DbState :=
  if commit then
    let o := orderFromData od docId (generateOrderId db.counters t).1 now
    ({ success := true, data := some o, message := some "Order created successfully" },
     { counters := (generateOrderId db.counters t).2, orders := db.orders ++ [(docId, o)] })
  else
    ({ success := false, error := some "allocation failed",
       message := some "Failed to create order" }, db)

/-- The partial merge performed by `updateOrder` (orders.ts lines 182-201):
`updateDoc` with the spread of `updates` plus the dotted field paths
`timestamps.updated` (always) and the status-specific timestamp when `updates`
carries a `status` equal to `approved`, `rejected` or `completed`.  Every field
path absent from the update object keeps its stored value. -/
def applyUpdates (o : Order) (u : OrderUpdates) (now : Nat) : Order :=
  { o with
    exchangeId := u.exchangeId.getD o.exchangeId
    type := u.type.getD o.type
    status := u.status.getD o.status
    submittedAmount := u.submittedAmount.getD o.submittedAmount
    finalAmount := match u.finalAmount with | some v => some v | none => o.finalAmount
    commission := u.commission.getD o.commission
    cliqDetails := match u.cliqDetails with | some v => some v | none => o.cliqDetails
    recipientDetails :=
      match u.recipientDetails with | some v => some v | none => o.recipientDetails
    bankUsed := match u.bankUsed with | some v => some v | none => o.bankUsed
    platformBankUsed :=
      match u.platformBankUsed with | some v => some v | none => o.platformBankUsed
    screenshots := u.screenshots.getD o.screenshots
    adminNotes := match u.adminNotes with | some v => some v | none => o.adminNotes
    rejectionReason :=
      match u.rejectionReason with | some v => some v | none => o.rejectionReason
    senderName := match u.senderName with | some v => some v | none => o.senderName
    timestamps :=
      match u.status with
      | some OrderStatus.approved => { o.timestamps with updated := now, approved := some now }
      | some OrderStatus.rejected => { o.timestamps with updated := now, rejected := some now }
      | some OrderStatus.completed => { o.timestamps with updated := now, completed := some now }
      | _ => { o.timestamps with updated := now } }

/-- Embeds `updateOrder` (orders.ts lines 177-220): `updateDoc` on a missing
document throws (caught as a failure response, nothing written); on an existing
document it applies the partial merge, and the subsequent `getOrderById` fetch
returns the updated record in the success response. -/
def updateOrder (db : DbState) (docId : String) (u : OrderUpdates) (now : Nat) :
    ApiResponse Order × DbState :=
  match List.lookup docId db.orders with
  | none =>
    ({ success := false, error := some "No document to update",
       message := some "Failed to update order" }, db)
  | some o =>
    ({ success := true, data := some (applyUpdates o u now),
       message := some "Order updated successfully" },
     { db with
        orders := db.orders.map
          (fun p => if p.1 = docId then (p.1, applyUpdates o u now) else p) })

/-- The `updates` object built by `updateOrderStatus` (orders.ts lines 222-231):
`{ status }`, plus — only when `notes` is truthy in JS, i.e. present and
non-empty — `rejectionReason: notes` when the target status is `rejected`,
otherwise `adminNotes: notes`. -/
def statusNotesUpdates (status : OrderStatus) (notes : Option String) : OrderUpdates :=
  match notes with
  | some s =>
    if s = "" then { status := some status }
    else if status = OrderStatus.rejected then
      { status := some status, rejectionReason := some s }
    else { status := some status, adminNotes := some s }
  | none => { status := some status }

/-- Embeds `updateOrderStatus` (orders.ts lines 222-234). -/
def updateOrderStatus (db : DbState) (docId : String) (status : OrderStatus)
    (notes : Option String) (now : Nat) : ApiResponse Order × DbState :=
  updateOrder db docId (statusNotesUpdates status notes) now

/-! ## Helper lemmas -/

theorem length_jsPadStart (s : String) (n : Nat) (c : Char) (h : s.length ≤ n) :
    (jsPadStart s n c).length = n := by
  unfold jsPadStart
  rw [String.length_append]
  have hrep : (String.mk (List.replicate (n - s.length) c)).length = n - s.length := by
    show (List.replicate (n - s.length) c).length = n - s.length
    simp
  rw [hrep]
  omega

theorem toDecimalChars_length_le :
    ∀ (fuel n k : Nat), n ≤ fuel → 1 ≤ k → n < 10 ^ k →
      (toDecimalChars fuel n).length ≤ k := by
  intro fuel
  induction fuel with
  | zero => intro n k _ _ _; simp [toDecimalChars]
  | succ fuel ih =>
    intro n k hn hk hlt
    by_cases h10 : n < 10
    · simp [toDecimalChars, h10]; omega
    · obtain ⟨k', rfl⟩ : ∃ k', k = k' + 1 := ⟨k - 1, by omega⟩
      have hk' : 1 ≤ k' := by
        rcases Nat.lt_or_ge k' 1 with h | h
        · exfalso
          have : k' = 0 := by omega
          subst this
          simp [pow_succ, pow_zero] at hlt
          omega
        · exact h
      have hdivfuel : n / 10 ≤ fuel := by
        have := Nat.div_lt_self (show 0 < n by omega) (show 1 < 10 by omega)
        omega
      have hdivlt : n / 10 < 10 ^ k' := by
        rw [Nat.div_lt_iff_lt_mul (by omega : 0 < 10)]
        calc n < 10 ^ (k' + 1) := hlt
        _ = 10 ^ k' * 10 := by rw [pow_succ]
      have := ih (n / 10) k' hdivfuel hk' hdivlt
      simp [toDecimalChars, h10]
      omega

theorem jsToString_length_le (n k : Nat) (hk : 1 ≤ k) (h : n < 10 ^ k) :
    (jsToString n).length ≤ k := by
  simpa [jsToString, String.length] using
    toDecimalChars_length_le n n k (Nat.le_refl n) hk h

theorem generateOrderId_step_some (s : CounterStore) (t : Nat) (c : CounterDoc)
    (h : s (counterKey t) = some c) :
    generateOrderId s t =
      (orderIdAt t (c.count + 1),
       fun k => if k = counterKey t then some ⟨c.count + 1, c.month⟩ else s k) := by
  unfold generateOrderId orderIdAt
  rw [h]

theorem generateOrderId_step_none (s : CounterStore) (t : Nat)
    (h : s (counterKey t) = none) :
    generateOrderId s t =
      (orderIdAt t 1,
       fun k => if k = counterKey t then some ⟨1, monthKeyStr t⟩ else s k) := by
  unfold generateOrderId orderIdAt
  rw [h]

theorem generateOrderId_id_eq (s : CounterStore) (t : Nat) :
    (generateOrderId s t).1 = orderIdAt t (nextSeq s t) := by
  cases h : s (counterKey t) with
  | some c => rw [generateOrderId_step_some s t c h]; simp [nextSeq, h]
  | none => rw [generateOrderId_step_none s t h]; simp [nextSeq, h]

theorem allocateMany_steady (t : Nat) (mo : String) (n : Nat) :
    ∀ (cnt : Nat) (s : CounterStore), s (counterKey t) = some ⟨cnt, mo⟩ →
      (allocateMany t n s).1 = (List.range' (cnt + 1) n).map (orderIdAt t)
      ∧ (allocateMany t n s).2 (counterKey t) = some ⟨cnt + n, mo⟩ := by
  induction n with
  | zero => intro cnt s h; simp [allocateMany, h]
  | succ n ih =>
    intro cnt s h
    have step := generateOrderId_step_some s t ⟨cnt, mo⟩ h
    have hnext :
        (generateOrderId s t).2 (counterKey t) = some ⟨cnt + 1, mo⟩ := by
      rw [step]; simp
    obtain ⟨ih1, ih2⟩ := ih (cnt + 1) (generateOrderId s t).2 hnext
    refine ⟨?_, ?_⟩
    · show (generateOrderId s t).1 ::
        (allocateMany t n (generateOrderId s t).2).1 = _
      rw [ih1, step, List.range'_succ]
      simp
    · show (allocateMany t n (generateOrderId s t).2).2 (counterKey t) = _
      rw [ih2]
      have : cnt + 1 + n = cnt + (n + 1) := by omega
      rw [this]

/-! ## Claims about the allocator -/

/-- Claim C1: for every month key, each successful allocation increments the
monthly counter by exactly 1 and returns the resulting value, so `n`
sequential committed allocations within one month, starting from a month whose
counter document is absent, return exactly the IDs with sequence numbers
`1, 2, ..., n` (`List.range' 1 n`): strictly increasing, no gaps, no
duplicates.  The concurrent-caller aspect is delegated to the store's
transaction, so allocations are composed sequentially here. -/
theorem generateOrderId_monthly_sequence (t n : Nat) (s : CounterStore)
    (hnone : s (counterKey t) = none) :
    (∀ (s' : CounterStore) (c : CounterDoc), s' (counterKey t) = some c →
        (generateOrderId s' t).1 = orderIdAt t (c.count + 1)
        ∧ (generateOrderId s' t).2 (counterKey t) = some ⟨c.count + 1, c.month⟩)
    ∧ (allocateMany t n s).1 = (List.range' 1 n).map (orderIdAt t) := by
  constructor
  · intro s' c h
    rw [generateOrderId_step_some s' t c h]
    exact ⟨rfl, by simp⟩
  · cases n with
    | zero => simp [allocateMany]
    | succ n =>
      have step := generateOrderId_step_none s t hnone
      have hsome : (generateOrderId s t).2 (counterKey t)
          = some ⟨1, monthKeyStr t⟩ := by
        rw [step]; simp
      obtain ⟨h1, _⟩ :=
        allocateMany_steady t (monthKeyStr t) n 1 (generateOrderId s t).2 hsome
      show (generateOrderId s t).1 ::
        (allocateMany t n (generateOrderId s t).2).1 = _
      rw [h1, step, List.range'_succ]
      simp

theorem generateOrderId_monthly_sequence_witness :
    emptyCounterStore (counterKey 0) = none
    ∧ (allocateMany 0 3 emptyCounterStore).1 = (List.range' 1 3).map (orderIdAt 0) :=
  ⟨rfl, (generateOrderId_monthly_sequence 0 3 emptyCounterStore rfl).2⟩

/-- 2025-06-30T22:00:00 UTC as epoch seconds, the month-boundary instant of the
specification: past midnight of July 1 on the Asia/Amman wall clock. -/
def boundaryInstant : Nat := 1751320800

/-- Claim C2: the allocator derives the month from the current instant
converted to the Asia/Amman wall clock, not from the UTC month: for every
instant the counter key and the YY/MM digits of the returned ID are built from
`jordanYearMonth` (the Jordan-zoned civil date), and at the concrete boundary
instant 2025-06-30T22:00 UTC — UTC month June — the Jordan month is July, the
counter key is `orders_2507` and the first allocated ID is `T25070001`. -/
theorem generateOrderId_jordan_month :
    (∀ (t : Nat) (s : CounterStore),
        (generateOrderId s t).1
            = "T" ++ sliceNegTwo (jsToString (jordanYearMonth t).1)
              ++ jsPadStart (jsToString (jordanYearMonth t).2) 2 '0'
              ++ jsPadStart (jsToString (nextSeq s t)) 4 '0'
        ∧ counterKey t
            = "orders_" ++ (sliceNegTwo (jsToString (jordanYearMonth t).1)
              ++ jsPadStart (jsToString (jordanYearMonth t).2) 2 '0'))
    ∧ utcYearMonth boundaryInstant = (2025, 6)
    ∧ jordanYearMonth boundaryInstant = (2025, 7)
    ∧ counterKey boundaryInstant = "orders_2507"
    ∧ (generateOrderId emptyCounterStore boundaryInstant).1 = "T25070001" := by
  refine ⟨fun t s => ⟨?_, rfl⟩, by decide, by decide, by decide, by decide⟩
  exact generateOrderId_id_eq s t

/-- Claim C3: the allocated ID is the concatenation `T ++ YY ++ MM ++ SEQ4`
with `SEQ4` the post-increment counter value zero-padded to exactly 4 digits
(for values up to 9999); when the counter document for the month is absent the
returned sequence is `0001`; and an allocation writes no key other than its own
month's counter key, so the first allocation under a fresh month key restarts
at sequence 1 regardless of other months' counters. -/
theorem generateOrderId_format (t : Nat) (s : CounterStore)
    (h : nextSeq s t ≤ 9999) :
    (generateOrderId s t).1
      = "T" ++ yearDigits t ++ monthDigits t ++ jsPadStart (jsToString (nextSeq s t)) 4 '0'
    ∧ (jsPadStart (jsToString (nextSeq s t)) 4 '0').length = 4
    ∧ (s (counterKey t) = none →
        (generateOrderId s t).1 = "T" ++ yearDigits t ++ monthDigits t ++ "0001")
    ∧ (∀ k, k ≠ counterKey t → (generateOrderId s t).2 k = s k) := by
  refine ⟨generateOrderId_id_eq s t, ?_, ?_, ?_⟩
  · apply length_jsPadStart
    apply jsToString_length_le _ 4 (by omega)
    have : (10 : Nat) ^ 4 = 10000 := by norm_num
    omega
  · intro hnone
    rw [generateOrderId_step_none s t hnone]
    have : jsPadStart (jsToString 1) 4 '0' = "0001" := by decide
    unfold orderIdAt
    rw [this]
  · intro k hk
    cases hc : s (counterKey t) with
    | some c =>
      rw [generateOrderId_step_some s t c hc]
      simp [hk]
    | none =>
      rw [generateOrderId_step_none s t hc]
      simp [hk]

theorem generateOrderId_format_witness :
    nextSeq emptyCounterStore 0 ≤ 9999
    ∧ (jsPadStart (jsToString (nextSeq emptyCounterStore 0)) 4 '0').length = 4
    ∧ (generateOrderId emptyCounterStore 0).1
        = "T" ++ yearDigits 0 ++ monthDigits 0 ++ "0001" :=
  ⟨by decide, (generateOrderId_format 0 emptyCounterStore (by decide)).2.1,
    (generateOrderId_format 0 emptyCounterStore (by decide)).2.2.1 rfl⟩

/-! ## Sample records for concrete evaluations -/

/-- The empty database state. -/
def emptyDb : DbState := { counters := emptyCounterStore, orders := [] }

/-- Concrete `orderData` whose caller-supplied status is `cancelled` (the
README's documented call site supplies `submitted`; the type admits any). -/
def sampleCancelledData : OrderData :=
  { exchangeId := "userId"
    type := OrderType.outgoing
    status := OrderStatus.cancelled
    submittedAmount := 1000
    commission := 20 }

/-- A stored order already in status `approved` with `timestamps.approved`
previously stamped at instant 5. -/
def sampleApprovedOrder : Order :=
  { id := "doc1"
    orderId := "T25070001"
    exchangeId := "userId"
    type := OrderType.outgoing
    status := OrderStatus.approved
    submittedAmount := 1000
    commission := 20
    timestamps := { created := 1, updated := 2, approved := some 5 } }

/-- A database holding `sampleApprovedOrder` under document id `doc1`. -/
def sampleDb : DbState :=
  { counters := emptyCounterStore, orders := [("doc1", sampleApprovedOrder)] }

/-- A freshly created order in status `submitted`. -/
def sampleSubmittedOrder : Order :=
  { id := "doc2"
    orderId := "T25070002"
    exchangeId := "userId"
    type := OrderType.outgoing
    status := OrderStatus.submitted
    submittedAmount := 1000
    commission := 20
    timestamps := { created := 1, updated := 1 } }

/-- A database holding `sampleSubmittedOrder` under document id `doc2`. -/
def sampleDb2 : DbState :=
  { counters := emptyCounterStore, orders := [("doc2", sampleSubmittedOrder)] }

/-- An update object carrying only a transition to `completed`. -/
def sampleUpdatesCompleted : OrderUpdates := { status := some OrderStatus.completed }

/-! ## Helper lemmas for the workflow -/

theorem applyUpdates_timestamps (o : Order) (u : OrderUpdates) (now : Nat) :
    (applyUpdates o u now).timestamps =
      match u.status with
      | some OrderStatus.approved => { o.timestamps with updated := now, approved := some now }
      | some OrderStatus.rejected => { o.timestamps with updated := now, rejected := some now }
      | some OrderStatus.completed => { o.timestamps with updated := now, completed := some now }
      | _ => { o.timestamps with updated := now } := rfl

theorem statusNotesUpdates_status (st : OrderStatus) (notes : Option String) :
    (statusNotesUpdates st notes).status = some st := by
  unfold statusNotesUpdates
  cases notes with
  | none => rfl
  | some s =>
    by_cases hse : s = ""
    · simp [hse]
    · by_cases hr : st = OrderStatus.rejected
      · simp [hse, hr]
      · simp [hse, hr]

/-! ## Claims about the order workflow -/

/-- Claim C4 counterexample: `createOrder` spreads the caller's `orderData`
unchanged, so a caller supplying status `cancelled` gets a persisted order in
status `cancelled`, not `submitted`; and a transition via `updateOrderStatus`
with target `submitted` does produce the `submitted` status. -/
theorem createOrder_submitted_claim_false :
    (createOrder emptyDb true 0 0 sampleCancelledData "doc1").1.data.map Order.status
        = some OrderStatus.cancelled
    ∧ (createOrder emptyDb true 0 0 sampleCancelledData "doc1").2.orders.map
        (fun p => p.2.status) = [OrderStatus.cancelled]
    ∧ OrderStatus.cancelled ≠ OrderStatus.submitted
    ∧ (updateOrderStatus (createOrder emptyDb true 0 0 sampleCancelledData "doc1").2
        "doc1" OrderStatus.submitted none 7).1.data.map Order.status
        = some OrderStatus.submitted := by
  exact ⟨rfl, rfl, by decide, rfl⟩

/-- Claim C4 (amended): `createOrder` persists the order with exactly the
status supplied by the creating caller (the documented call sites supply
`submitted`); it does not itself set or enforce `submitted`, and
`updateOrderStatus` applied with target `submitted` produces the `submitted`
status (no status is unreachable by transition). -/
theorem createOrder_status_passthrough (db : DbState) (t now : Nat) (od : OrderData)
    (docId : String) :
    (createOrder db true t now od docId).1.data.map Order.status = some od.status
    ∧ (createOrder db true t now od docId).2.orders
        = db.orders ++ [(docId, orderFromData od docId (generateOrderId db.counters t).1 now)]
    ∧ (orderFromData od docId (generateOrderId db.counters t).1 now).status = od.status
    ∧ (∀ (o : Order) (now2 : Nat),
        (applyUpdates o (statusNotesUpdates OrderStatus.submitted none) now2).status
          = OrderStatus.submitted) := by
  exact ⟨rfl, rfl, rfl, fun o now2 => rfl⟩

/-- Claim C5 counterexample: `sampleApprovedOrder` already has
`timestamps.approved = some 5`; a second transition to `approved` at instant 9
overwrites it with `some 9`, so the previously stored value does not survive. -/
theorem timestamps_write_once_claim_false :
    sampleApprovedOrder.timestamps.approved = some 5
    ∧ (updateOrderStatus sampleDb "doc1" OrderStatus.approved none 9).1.data.map
        (fun o => o.timestamps.approved) = some (some 9)
    ∧ (some 9 : Option Nat) ≠ some 5 := by
  exact ⟨rfl, rfl, by decide⟩

/-- Claim C5 (amended): the status-specific timestamps are not write-once: on
every transition whose update carries status `approved`, `rejected` or
`completed`, the corresponding timestamp field is stamped with the current
instant, overwriting any previously stored value. -/
theorem statusTimestamp_restamped (o : Order) (u : OrderUpdates) (now : Nat) :
    (u.status = some OrderStatus.approved →
        (applyUpdates o u now).timestamps.approved = some now)
    ∧ (u.status = some OrderStatus.rejected →
        (applyUpdates o u now).timestamps.rejected = some now)
    ∧ (u.status = some OrderStatus.completed →
        (applyUpdates o u now).timestamps.completed = some now) := by
  refine ⟨fun h => ?_, fun h => ?_, fun h => ?_⟩ <;>
    rw [applyUpdates_timestamps, h]

theorem statusTimestamp_restamped_witness :
    ({ status := some OrderStatus.approved : OrderUpdates }).status
        = some OrderStatus.approved
    ∧ (applyUpdates sampleApprovedOrder { status := some OrderStatus.approved } 9).timestamps.approved
        = some 9 :=
  ⟨rfl, (statusTimestamp_restamped sampleApprovedOrder
    { status := some OrderStatus.approved } 9).1 rfl⟩

/-- Claim C6: if the counter transaction does not commit, `generateOrderId`
throws before `addDoc` runs, so `createOrder` persists nothing (state
unchanged) and returns a failure; when it commits, the order is fully
persisted with its allocated ID — there is no partial-failure mode. -/
theorem createOrder_allocation_failure_atomic (db : DbState) (t now : Nat)
    (od : OrderData) (docId : String) :
    (createOrder db false t now od docId).1.success = false
    ∧ (createOrder db false t now od docId).1.data = none
    ∧ (createOrder db false t now od docId).2 = db
    ∧ (createOrder db true t now od docId).1.success = true
    ∧ (createOrder db true t now od docId).2.orders
        = db.orders ++ [(docId, orderFromData od docId (generateOrderId db.counters t).1 now)] := by
  exact ⟨rfl, rfl, rfl, rfl, rfl⟩

/-- Claim C7: every transition applied via `updateOrder` is a partial merge:
`timestamps.updated` is refreshed on every call, the status-specific timestamp
for the target status is set, and every field path absent from the update
object — including `timestamps.created` and, on a transition to `completed`,
the previously set `timestamps.approved` and `timestamps.rejected` — retains
its prior value. -/
theorem updateOrder_merge_frame (o : Order) (u : OrderUpdates) (now : Nat) :
    (applyUpdates o u now).timestamps.updated = now
    ∧ (applyUpdates o u now).timestamps.created = o.timestamps.created
    ∧ (u.exchangeId = none → (applyUpdates o u now).exchangeId = o.exchangeId)
    ∧ (u.type = none → (applyUpdates o u now).type = o.type)
    ∧ (u.status = none → (applyUpdates o u now).status = o.status)
    ∧ (u.submittedAmount = none →
        (applyUpdates o u now).submittedAmount = o.submittedAmount)
    ∧ (u.finalAmount = none → (applyUpdates o u now).finalAmount = o.finalAmount)
    ∧ (u.commission = none → (applyUpdates o u now).commission = o.commission)
    ∧ (u.cliqDetails = none → (applyUpdates o u now).cliqDetails = o.cliqDetails)
    ∧ (u.recipientDetails = none →
        (applyUpdates o u now).recipientDetails = o.recipientDetails)
    ∧ (u.bankUsed = none → (applyUpdates o u now).bankUsed = o.bankUsed)
    ∧ (u.platformBankUsed = none →
        (applyUpdates o u now).platformBankUsed = o.platformBankUsed)
    ∧ (u.screenshots = none → (applyUpdates o u now).screenshots = o.screenshots)
    ∧ (u.adminNotes = none → (applyUpdates o u now).adminNotes = o.adminNotes)
    ∧ (u.rejectionReason = none →
        (applyUpdates o u now).rejectionReason = o.rejectionReason)
    ∧ (u.senderName = none → (applyUpdates o u now).senderName = o.senderName)
    ∧ (u.status = some OrderStatus.completed →
        (applyUpdates o u now).timestamps.completed = some now
        ∧ (applyUpdates o u now).timestamps.approved = o.timestamps.approved
        ∧ (applyUpdates o u now).timestamps.rejected = o.timestamps.rejected)
    ∧ (u.status = some OrderStatus.approved →
        (applyUpdates o u now).timestamps.approved = some now
        ∧ (applyUpdates o u now).timestamps.completed = o.timestamps.completed
        ∧ (applyUpdates o u now).timestamps.rejected = o.timestamps.rejected)
    ∧ (u.status = some OrderStatus.rejected →
        (applyUpdates o u now).timestamps.rejected = some now
        ∧ (applyUpdates o u now).timestamps.completed = o.timestamps.completed
        ∧ (applyUpdates o u now).timestamps.approved = o.timestamps.approved) := by
  refine ⟨?_, ?_, fun h => by simp [applyUpdates, h], fun h => by simp [applyUpdates, h],
    fun h => by simp [applyUpdates, h], fun h => by simp [applyUpdates, h],
    fun h => by simp [applyUpdates, h], fun h => by simp [applyUpdates, h],
    fun h => by simp [applyUpdates, h], fun h => by simp [applyUpdates, h],
    fun h => by simp [applyUpdates, h], fun h => by simp [applyUpdates, h],
    fun h => by simp [applyUpdates, h], fun h => by simp [applyUpdates, h],
    fun h => by simp [applyUpdates, h], fun h => by simp [applyUpdates, h],
    fun h => ?_, fun h => ?_, fun h => ?_⟩
  · rw [applyUpdates_timestamps]
    cases h : u.status with
    | none => rfl
    | some st => cases st <;> rfl
  · rw [applyUpdates_timestamps]
    cases h : u.status with
    | none => rfl
    | some st => cases st <;> rfl
  · rw [applyUpdates_timestamps, h]
    exact ⟨rfl, rfl, rfl⟩
  · rw [applyUpdates_timestamps, h]
    exact ⟨rfl, rfl, rfl⟩
  · rw [applyUpdates_timestamps, h]
    exact ⟨rfl, rfl, rfl⟩

theorem updateOrder_merge_frame_witness :
    sampleUpdatesCompleted.status = some OrderStatus.completed
    ∧ sampleUpdatesCompleted.exchangeId = none
    ∧ (applyUpdates sampleApprovedOrder sampleUpdatesCompleted 9).exchangeId
        = sampleApprovedOrder.exchangeId
    ∧ (applyUpdates sampleApprovedOrder sampleUpdatesCompleted 9).timestamps.completed
        = some 9
    ∧ (applyUpdates sampleApprovedOrder sampleUpdatesCompleted 9).timestamps.approved
        = sampleApprovedOrder.timestamps.approved := by
  have h := updateOrder_merge_frame sampleApprovedOrder sampleUpdatesCompleted 9
  exact ⟨rfl, rfl, h.2.2.1 rfl,
    (h.2.2.2.2.2.2.2.2.2.2.2.2.2.2.2.2.1 rfl).1,
    (h.2.2.2.2.2.2.2.2.2.2.2.2.2.2.2.2.1 rfl).2.1⟩

/-- Claim C8: when `updateOrderStatus` is called with target `rejected` and a
non-empty note, the note is stored in `rejectionReason` and `adminNotes` keeps
its prior value; with any other target status the note is stored in
`adminNotes` and `rejectionReason` keeps its prior value. -/
theorem updateOrderStatus_note_routing (db : DbState) (docId : String) (o : Order)
    (st : OrderStatus) (s : String) (now : Nat)
    (hl : List.lookup docId db.orders = some o) (hs : s ≠ "") :
    (st = OrderStatus.rejected →
        (updateOrderStatus db docId st (some s) now).1.data.map Order.rejectionReason
            = some (some s)
        ∧ (updateOrderStatus db docId st (some s) now).1.data.map Order.adminNotes
            = some o.adminNotes)
    ∧ (st ≠ OrderStatus.rejected →
        (updateOrderStatus db docId st (some s) now).1.data.map Order.adminNotes
            = some (some s)
        ∧ (updateOrderStatus db docId st (some s) now).1.data.map Order.rejectionReason
            = some o.rejectionReason) := by
  unfold updateOrderStatus updateOrder statusNotesUpdates
  rw [hl]
  constructor
  · intro hrej
    subst hrej
    simp [hs, applyUpdates]
  · intro hrej
    simp [hs, hrej, applyUpdates]

theorem updateOrderStatus_note_routing_witness :
    List.lookup "doc1" sampleDb.orders = some sampleApprovedOrder
    ∧ ("bad receipt" ≠ "")
    ∧ ((updateOrderStatus sampleDb "doc1" OrderStatus.rejected (some "bad receipt") 9).1.data.map
        Order.rejectionReason = some (some "bad receipt"))
    ∧ ((updateOrderStatus sampleDb "doc1" OrderStatus.rejected (some "bad receipt") 9).1.data.map
        Order.adminNotes = some sampleApprovedOrder.adminNotes) := by
  have h := updateOrderStatus_note_routing sampleDb "doc1" sampleApprovedOrder
    OrderStatus.rejected "bad receipt" 9 rfl (by decide)
  exact ⟨rfl, by decide, (h.1 rfl).1, (h.1 rfl).2⟩

/-- Claim C9: `updateOrderStatus` imposes no transition-adjacency check: for an
order stored under `docId` with any current status, a transition to any of the
seven workflow states succeeds (`success = true`, no `InvalidTransitionError`
path exists in the code) and sets the status to the target; in particular a
freshly created `submitted` order moves directly to `completed` (witness). -/
theorem updateOrderStatus_no_adjacency_check (db : DbState) (docId : String)
    (o : Order) (target : OrderStatus) (notes : Option String) (now : Nat)
    (hl : List.lookup docId db.orders = some o) :
    (updateOrderStatus db docId target notes now).1.success = true
    ∧ (updateOrderStatus db docId target notes now).1.data.map Order.status
        = some target := by
  unfold updateOrderStatus updateOrder
  rw [hl]
  refine ⟨rfl, ?_⟩
  show some ((applyUpdates o (statusNotesUpdates target notes) now).status) = some target
  have hst : (applyUpdates o (statusNotesUpdates target notes) now).status
      = (statusNotesUpdates target notes).status.getD o.status := rfl
  rw [hst, statusNotesUpdates_status]
  rfl

theorem updateOrderStatus_no_adjacency_check_witness :
    List.lookup "doc2" sampleDb2.orders = some sampleSubmittedOrder
    ∧ sampleSubmittedOrder.status = OrderStatus.submitted
    ∧ (updateOrderStatus sampleDb2 "doc2" OrderStatus.completed none 9).1.success = true
    ∧ (updateOrderStatus sampleDb2 "doc2" OrderStatus.completed none 9).1.data.map
        Order.status = some OrderStatus.completed := by
  have h := updateOrderStatus_no_adjacency_check sampleDb2 "doc2" sampleSubmittedOrder
    OrderStatus.completed none 9 rfl
  exact ⟨rfl, rfl, h.1, h.2⟩

/-- Claim C10: a note equal to the empty string is falsy in JS, so
`updateOrderStatus` drops it silently: neither `rejectionReason` nor
`adminNotes` is written, for every target status including `rejected`
(both fields keep their prior values). -/
theorem updateOrderStatus_empty_note_dropped (db : DbState) (docId : String)
    (o : Order) (st : OrderStatus) (now : Nat)
    (hl : List.lookup docId db.orders = some o) :
    (updateOrderStatus db docId st (some "") now).1.data.map Order.rejectionReason
        = some o.rejectionReason
    ∧ (updateOrderStatus db docId st (some "") now).1.data.map Order.adminNotes
        = some o.adminNotes := by
  unfold updateOrderStatus updateOrder statusNotesUpdates
  rw [hl]
  simp [applyUpdates]

theorem updateOrderStatus_empty_note_dropped_witness :
    List.lookup "doc1" sampleDb.orders = some sampleApprovedOrder
    ∧ (updateOrderStatus sampleDb "doc1" OrderStatus.rejected (some "") 9).1.data.map
        Order.rejectionReason = some sampleApprovedOrder.rejectionReason
    ∧ (updateOrderStatus sampleDb "doc1" OrderStatus.rejected (some "") 9).1.data.map
        Order.adminNotes = some sampleApprovedOrder.adminNotes := by
  have h := updateOrderStatus_empty_note_dropped sampleDb "doc1" sampleApprovedOrder
    OrderStatus.rejected 9 rfl
  exact ⟨rfl, h.1, h.2⟩
